import Mathlib

/-!
Verification of the file-transformation handlers of the converter app
(`app.py`): PDF encrypt/decrypt, PDF rasterization, image resize and
compression, and the OCR entry points, in a shallow embedding.

Modelling conventions:
* PDF byte buffers are `List Nat`; a well-formed buffer is the injective
  serialization `encodePdf` of an abstract `PdfDoc` (pages, optional
  encryption with a user and an owner password, and container metadata).
  `decodePdf` is its partial inverse; buffers that do not decode model
  malformed PDFs.
* Uploaded image files are `Option Img`: `none` is an undecodable file,
  `some img` decodes to a PIL-style image with pixel dimensions, a mode
  string ("RGB", "RGBA", "P", "LA", ...), a detected source format, the
  rasterization dpi it was produced at, and abstract pixel content.
* Streamlit message calls (`st.error` / `st.info` / `st.success`) become an
  accumulated `List Msg`; a Python exception is the `Except.error` side of
  the result, so a `try/except` block is the wrapper `runCaught`, which
  turns an exception into an error message plus a `none` result.
* External OCR recognition (`easyocr.readtext`) and `img2pdf.convert` are
  taken as parameters of the handlers that call them, since the handlers
  treat them as opaque fallible calls.
-/

/-- A user-visible Streamlit message emitted by a handler. -/
inductive Msg where
  | error (s : String)
  | info (s : String)
  | success (s : String)
deriving Repr, DecidableEq

/-- One PDF page: abstract content plus its media-box size in points. -/
structure Page where
  content : Nat
  w : Nat
  h : Nat
deriving Repr, DecidableEq

/-- An abstract PDF document: its pages, its encryption dictionary (user and
owner password) when present, and container-level metadata that a rewrite of
the file may change. -/
structure PdfDoc where
  pages : List Page
  encryption : Option (String × String)
  meta : Nat
deriving Repr, DecidableEq

/-- A decoded (PIL-style) image. -/
structure Img where
  width : Nat
  height : Nat
  mode : String
  format : Option String
  dpi : Nat
  data : Nat
deriving Repr, DecidableEq

/-- Python's `str.lower()` on the short format names used by the app. -/
def strLower (s : String) : String := String.mk (s.toList.map Char.toLower)

/-! ### The PDF byte codec -/

/-- Serialize a string as a length-prefixed list of character codes. -/
def encStr (s : String) : List Nat := s.toList.length :: s.toList.map Char.toNat

/-- Serialize one page. -/
def encPage (p : Page) : List Nat := [p.content, p.w, p.h]

/-- Serialize a page list with a leading page count. -/
def encPages (ps : List Page) : List Nat := ps.length :: (ps.map encPage).flatten

/-- Injective serialization of a `PdfDoc` into a byte buffer. -/
def encodePdf (d : PdfDoc) : List Nat :=
  match d.encryption with
  | none => 0 :: d.meta :: encPages d.pages
  | some (u, o) => 1 :: d.meta :: (encStr u ++ encStr o ++ encPages d.pages)

/-- Read `n` character codes. -/
def readChars : Nat → List Nat → Option (List Char × List Nat)
  | 0, r => some ([], r)
  | _ + 1, [] => none
  | n + 1, c :: r =>
    match readChars n r with
    | none => none
    | some (cs, rest) => some (Char.ofNat c :: cs, rest)

/-- Read a length-prefixed string. -/
def readStr (l : List Nat) : Option (String × List Nat) :=
  match l with
  | [] => none
  | n :: r =>
    match readChars n r with
    | none => none
    | some (cs, rest) => some (String.mk cs, rest)

/-- Read one serialized page. -/
def readPage (l : List Nat) : Option (Page × List Nat) :=
  match l with
  | c :: w :: h :: r => some (⟨c, w, h⟩, r)
  | _ => none

/-- Read `n` serialized pages. -/
def readPages : Nat → List Nat → Option (List Page × List Nat)
  | 0, r => some ([], r)
  | n + 1, r =>
    match readPage r with
    | none => none
    | some (p, rest) =>
      match readPages n rest with
      | none => none
      | some (ps, rest2) => some (p :: ps, rest2)

/-- Parse a byte buffer back into a `PdfDoc`; `none` models a malformed PDF
that makes the libraries raise on open. -/
def decodePdf (l : List Nat) : Option PdfDoc :=
  match l with
  | 0 :: meta :: n :: rest =>
    (match readPages n rest with
     | some (ps, []) => some ⟨ps, none, meta⟩
     | _ => none)
  | 1 :: meta :: rest =>
    (match readStr rest with
     | some (u, r1) =>
       (match readStr r1 with
        | some (o, r2) =>
          (match r2 with
           | n :: r3 =>
             (match readPages n r3 with
              | some (ps, []) => some ⟨ps, some (u, o), meta⟩
              | _ => none)
           | [] => none)
        | none => none)
     | none => none)
  | _ => none

theorem readChars_enc (cs : List Char) (r : List Nat) :
    readChars cs.length (cs.map Char.toNat ++ r) = some (cs, r) := by
  induction cs with
  | nil => rfl
  | cons c cs ih => simp [readChars, ih, Char.ofNat_toNat]

theorem readStr_encStr (s : String) (r : List Nat) :
    readStr (encStr s ++ r) = some (s, r) := by
  simp only [encStr, List.cons_append, readStr]
  rw [readChars_enc s.toList r]
  rfl

theorem readPages_enc (ps : List Page) (r : List Nat) :
    readPages ps.length ((ps.map encPage).flatten ++ r) = some (ps, r) := by
  induction ps with
  | nil => rfl
  | cons p ps ih => simp [readPages, readPage, encPage, ih]

theorem decodePdf_encodePdf (d : PdfDoc) : decodePdf (encodePdf d) = some d := by
  obtain ⟨ps, enc, meta⟩ := d
  cases enc with
  | none =>
    have h := readPages_enc ps []
    simp only [List.append_nil] at h
    simp [encodePdf, encPages, decodePdf, h]
  | some uo =>
    obtain ⟨u, o⟩ := uo
    have h := readPages_enc ps []
    simp only [List.append_nil] at h
    simp [encodePdf, encPages, decodePdf, readStr_encStr, List.append_assoc, h]

/-! ### Models of the external library calls -/

/-- Image modes PIL can encode as JPEG (`JpegImagePlugin.RAWMODE`); saving any
other mode as JPEG raises `OSError: cannot write mode ... as JPEG`. -/
def jpegWritableModes : List String := ["1", "L", "RGB", "RGBX", "CMYK", "YCbCr"]

/-- `PIL.Image.open`: raises on a file PIL cannot decode. -/
def pilOpen : Option Img → Except String Img
  | none => Except.error "cannot identify image file"
  | some img => Except.ok img

/-- `img.save(buffer, format=fmt)`: records the encoded format; encoding as
JPEG is only possible for the modes in `jpegWritableModes`. -/
def pilSave (img : Img) (fmt : String) : Except String Img :=
  if fmt == "JPEG" && !(jpegWritableModes.contains img.mode) then
    Except.error ("cannot write mode " ++ img.mode ++ " as JPEG")
  else Except.ok { img with format := some fmt }

/-- `img.resize((width, height), LANCZOS)`: the requested dimensions are
applied verbatim; mode and content carry over (the resampling filter does not
change the pixel dimensions). -/
def pilResize (img : Img) (width height : Nat) : Img :=
  { img with width := width, height := height }

/-- `img.convert("RGB")`: flattening to the opaque RGB color model. -/
def pilConvertRGB (img : Img) : Img := { img with mode := "RGB" }

/-- `fitz.open(stream=..., filetype="pdf")`: raises on malformed bytes. -/
def fitzOpen (pdf_bytes : List Nat) : Except String PdfDoc :=
  match decodePdf pdf_bytes with
  | none => Except.error "Failed to open stream"
  | some doc => Except.ok doc

/-- `page.get_pixmap(dpi=dpi)` followed by `Image.open(pix.tobytes(fmt))`:
an RGB image scaled from the page size by dpi/72, tagged with the format it
was encoded with and the dpi used. -/
def fitzRenderPage (dpi : Nat) (image_format : String) (p : Page) : Img :=
  { width := p.w * dpi / 72, height := p.h * dpi / 72, mode := "RGB",
    format := some image_format, dpi := dpi, data := p.content }

/-- The page loop of `pdf_to_images_pymupdf`: accessing pages of a
password-protected document raises in PyMuPDF. -/
def fitzRenderAll (doc : PdfDoc) (dpi : Nat) (image_format : String) :
    Except String (List Img) :=
  if doc.encryption.isSome && !doc.pages.isEmpty then
    Except.error "document closed or encrypted"
  else Except.ok (doc.pages.map (fitzRenderPage dpi image_format))

/-- `pypdf.PdfReader(stream)`: raises on malformed bytes. -/
def pypdfReaderOpen (pdf_bytes : List Nat) : Except String PdfDoc :=
  match decodePdf pdf_bytes with
  | none => Except.error "Stream has ended unexpectedly"
  | some doc => Except.ok doc

/-- `reader.decrypt(password)` is truthy iff the password matches the user or
the owner password of the encryption dictionary. -/
def pypdfDecrypt (doc : PdfDoc) (password : String) : Bool :=
  match doc.encryption with
  | none => true
  | some (u, o) => password == u || password == o

/-- Container metadata a fresh `PdfWriter` writes (producer line, ids); this
is what "container metadata differences" after a rewrite refer to. -/
def pypdfWriterMeta : Nat := 0

/-- A fresh `PdfWriter` receiving `pages` by `add_page`, with `encryption`
when `writer.encrypt` was called, written out by `writer.write`. -/
def pypdfWriterWrite (pages : List Page) (encryption : Option (String × String)) :
    List Nat :=
  encodePdf { pages := pages, encryption := encryption, meta := pypdfWriterMeta }

/-- Python's `a or b` on an optional string: `None` and `""` are falsy. -/
def pyOrStr : Option String → String → String
  | none, b => b
  | some a, b => if a == "" then b else a

/-! ### Handlers

Each `..._body` is the code inside a handler's `try:` block, with exceptions
as `Except.error`; `runCaught` is the `except Exception as e:` clause, which
shows `st.error(prefix + str(e))` and returns `None`. -/

/-- A handler result: the Streamlit messages shown, then either a returned
value (`Except.ok`, with `none` for Python `None`) or an exception that
escaped the handler (`Except.error`). -/
abbrev HRes (α : Type) := List Msg × Except String (Option α)

/-- The `try/except` wrapper every handler except `perform_ocr_on_image`
uses: a raised exception becomes an error message plus a `None` return. -/
def runCaught (pre : String) : HRes α → HRes α
  | (msgs, Except.ok v) => (msgs, Except.ok v)
  | (msgs, Except.error e) => (msgs ++ [Msg.error (pre ++ e)], Except.ok none)

/-- Body of `pdf_to_images_pymupdf` (the Python defaults are `dpi=200`,
`image_format="PNG"`; callers relying on them pass these values here). -/
def pdf_to_images_pymupdf_body (pdf_bytes : List Nat) (dpi : Nat)
    (image_format : String) : HRes (List Img) :=
  match fitzOpen pdf_bytes with
  | Except.error e => ([], Except.error e)
  | Except.ok doc =>
    match fitzRenderAll doc dpi image_format with
    | Except.error e => ([], Except.error e)
    | Except.ok images => ([], Except.ok (some images))

/-- `pdf_to_images_pymupdf(pdf_bytes, dpi, image_format)`. -/
def pdf_to_images_pymupdf (pdf_bytes : List Nat) (dpi : Nat)
    (image_format : String) : HRes (List Img) :=
  runCaught "Error converting PDF: " (pdf_to_images_pymupdf_body pdf_bytes dpi image_format)

/-- The `lang_map` dictionary shared by both OCR functions. -/
def lang_map : List (String × String) :=
  [("eng", "en"), ("spa", "es"), ("fra", "fr"), ("deu", "de"),
   ("hin", "hi"), ("chi_sim", "ch_sim")]

/-- The page loop of `perform_ocr_on_pdf`: recognize each page with
`reader.readtext` (a fallible external call, passed in as `readtext`) and
collect one "--- Page i ---" block per page. -/
def ocrPages (readtext : String → Img → Except String (List String))
    (lang : String) : List Img → Nat → Except String (List String)
  | [], _ => Except.ok []
  | img :: rest, page_num =>
    match readtext lang img with
    | Except.error e => Except.error e
    | Except.ok results =>
      match ocrPages readtext lang rest (page_num + 1) with
      | Except.error e => Except.error e
      | Except.ok texts =>
        Except.ok (("--- Page " ++ toString (page_num + 1) ++ " ---\n" ++
          String.intercalate "\n" results ++ "\n") :: texts)

/-- Body of `perform_ocr_on_pdf`: rasterize with `pdf_to_images_pymupdf` at
its defaults (dpi=200, format PNG), then loop. When the inner handler caught
an error and returned `None`, iterating over it raises `TypeError`. -/
def perform_ocr_on_pdf_body (readtext : String → Img → Except String (List String))
    (pdf_bytes : List Nat) (language : String) : HRes (List String) :=
  match pdf_to_images_pymupdf pdf_bytes 200 "PNG" with
  | (msgs, Except.error e) => (msgs, Except.error e)
  | (msgs, Except.ok none) => (msgs, Except.error "NoneType object is not iterable")
  | (msgs, Except.ok (some images)) =>
    match ocrPages readtext ((lang_map.lookup language).getD "en") images 0 with
    | Except.error e => (msgs, Except.error e)
    | Except.ok texts => (msgs, Except.ok (some texts))

/-- `perform_ocr_on_pdf(pdf_file, language)`. -/
def perform_ocr_on_pdf (readtext : String → Img → Except String (List String))
    (pdf_bytes : List Nat) (language : String) : HRes (List String) :=
  runCaught "OCR Error: " (perform_ocr_on_pdf_body readtext pdf_bytes language)

/-- `perform_ocr_on_image(image_file, language)`: the one handler with no
`try/except`; an exception from `Image.open` or `readtext` escapes. -/
def perform_ocr_on_image (readtext : String → Img → Except String (List String))
    (image_file : Option Img) (language : String) : Except String String :=
  match pilOpen image_file with
  | Except.error e => Except.error e
  | Except.ok img =>
    match readtext ((lang_map.lookup language).getD "en") img with
    | Except.error e => Except.error e
    | Except.ok results => Except.ok (String.intercalate "\n" results)

/-- Body of `encrypt_pdf`: read all pages into a writer, call
`writer.encrypt(user_password, owner_password or user_password, "AES-256")`
and write the result. Accessing the pages of an encrypted reader without
decrypting raises in pypdf. -/
def encrypt_pdf_body (pdf_bytes : List Nat) (user_password : String)
    (owner_password : Option String) : HRes (List Nat) :=
  match pypdfReaderOpen pdf_bytes with
  | Except.error e => ([], Except.error e)
  | Except.ok doc =>
    if doc.encryption.isSome then ([], Except.error "File has not been decrypted")
    else
      ([], Except.ok (some (pypdfWriterWrite doc.pages
        (some (user_password, pyOrStr owner_password user_password)))))

/-- `encrypt_pdf(pdf_bytes, user_password, owner_password=None)`. -/
def encrypt_pdf (pdf_bytes : List Nat) (user_password : String)
    (owner_password : Option String) : HRes (List Nat) :=
  runCaught "Encryption error: " (encrypt_pdf_body pdf_bytes user_password owner_password)

/-- Body of `decrypt_pdf`: if the reader is encrypted and `decrypt` succeeds,
copy the pages into a fresh writer and return its output; on a falsy
`decrypt` show "Incorrect password" and return `None`; if not encrypted show
an info message and return the input bytes themselves. -/
def decrypt_pdf_body (encrypted_pdf_bytes : List Nat) (password : String) :
    HRes (List Nat) :=
  match pypdfReaderOpen encrypted_pdf_bytes with
  | Except.error e => ([], Except.error e)
  | Except.ok doc =>
    if doc.encryption.isSome then
      if pypdfDecrypt doc password then
        ([], Except.ok (some (pypdfWriterWrite doc.pages none)))
      else ([Msg.error "Incorrect password"], Except.ok none)
    else ([Msg.info "PDF is not encrypted"], Except.ok (some encrypted_pdf_bytes))

/-- `decrypt_pdf(encrypted_pdf_bytes, password)`. -/
def decrypt_pdf (encrypted_pdf_bytes : List Nat) (password : String) :
    HRes (List Nat) :=
  runCaught "Decryption error: " (decrypt_pdf_body encrypted_pdf_bytes password)

/-- The expression `img.format if img.format else "PNG"` in `resize_image`:
Python treats both `None` and the empty string as falsy. -/
def pilFormatOrPNG (img : Img) : String :=
  match img.format with
  | none => "PNG"
  | some f => if f == "" then "PNG" else f

/-- Body of `resize_image`: decode, resize to the verbatim target size, and
re-encode in the detected source format (PNG when undetectable); returns the
encoded image together with the lowercased format name. -/
def resize_image_body (image_file : Option Img) (width height : Nat) :
    HRes (Img × String) :=
  match pilOpen image_file with
  | Except.error e => ([], Except.error e)
  | Except.ok img =>
    match pilSave (pilResize img width height) (pilFormatOrPNG img) with
    | Except.error e => ([], Except.error e)
    | Except.ok saved => ([], Except.ok (some (saved, strLower (pilFormatOrPNG img))))

/-- `resize_image(image_file, width, height)` (the source returns the pair
`(None, None)` on failure, modelled as the single `none`). -/
def resize_image (image_file : Option Img) (width height : Nat) :
    HRes (Img × String) :=
  runCaught "Resize error: " (resize_image_body image_file width height)

/-- Body of `compress_image`: decode, convert to RGB only when the mode is
exactly "RGBA" or "P", then JPEG-encode (`quality` and `optimize` only shape
the encoded size, not success, and are not modelled further). -/
def compress_image_body (image_file : Option Img) (quality : Nat) : HRes Img :=
  match pilOpen image_file with
  | Except.error e => ([], Except.error e)
  | Except.ok img0 =>
    match pilSave (if img0.mode == "RGBA" || img0.mode == "P"
        then pilConvertRGB img0 else img0) "JPEG" with
    | Except.error e => ([], Except.error e)
    | Except.ok saved => ([], Except.ok (some saved))

/-- `compress_image(image_file, quality=85)`. -/
def compress_image (image_file : Option Img) (quality : Nat) : HRes Img :=
  runCaught "Compression error: " (compress_image_body image_file quality)

/-- Body of `images_to_pdf_conversion`: gather the raw files and hand them to
`img2pdf.convert` (a fallible external call, passed in as `convert`). -/
def images_to_pdf_conversion_body (convert : List (Option Img) → Except String (List Nat))
    (image_files : List (Option Img)) : HRes (List Nat) :=
  match convert image_files with
  | Except.error e => ([], Except.error e)
  | Except.ok pdf_bytes => ([], Except.ok (some pdf_bytes))

/-- `images_to_pdf_conversion(image_files)`. -/
def images_to_pdf_conversion (convert : List (Option Img) → Except String (List Nat))
    (image_files : List (Option Img)) : HRes (List Nat) :=
  runCaught "Error creating PDF: " (images_to_pdf_conversion_body convert image_files)

/-! ### The rasterize interface (`pdf_to_images_interface`) -/

/-- The zip loop of `pdf_to_images_interface`: entry `i` (0-based loop index)
is written as `page_{i+1}.{image_format.lower()}` holding the image re-saved
in the chosen format. Runs outside any `try`, so a save error would escape. -/
def packZipEntriesFrom (image_format : String) :
    List Img → Nat → Except String (List (String × Img))
  | [], _ => Except.ok []
  | img :: rest, i =>
    match pilSave img image_format with
    | Except.error e => Except.error e
    | Except.ok saved =>
      match packZipEntriesFrom image_format rest (i + 1) with
      | Except.error e => Except.error e
      | Except.ok tail =>
        Except.ok (("page_" ++ toString (i + 1) ++ "." ++ strLower image_format,
          saved) :: tail)

/-- The convert-button block of `pdf_to_images_interface`: call the handler,
then `if images:` — Python truthiness, so both `None` (handler error) and the
empty list (zero-page PDF) skip the success message and the archive. -/
def pdf_to_images_interface_convert (pdf_bytes : List Nat) (dpi : Nat)
    (image_format : String) : HRes (List (String × Img)) :=
  match pdf_to_images_pymupdf pdf_bytes dpi image_format with
  | (msgs, Except.error e) => (msgs, Except.error e)
  | (msgs, Except.ok none) => (msgs, Except.ok none)
  | (msgs, Except.ok (some images)) =>
    if images.isEmpty then (msgs, Except.ok none)
    else
      match packZipEntriesFrom image_format images 0 with
      | Except.error e =>
        (msgs ++ [Msg.success ("✅ Converted " ++ toString images.length ++
          " pages successfully!")], Except.error e)
      | Except.ok entries =>
        (msgs ++ [Msg.success ("✅ Converted " ++ toString images.length ++
          " pages successfully!")], Except.ok (some entries))

/-- The archive entries the zip loop produces for a given image list. -/
def expectedEntries (image_format : String) : List Img → Nat → List (String × Img)
  | [], _ => []
  | img :: rest, i =>
    ("page_" ++ toString (i + 1) ++ "." ++ strLower image_format,
      { img with format := some image_format }) :: expectedEntries image_format rest (i + 1)

/-! ### Fixtures for the concrete-witness theorems -/

/-- A three-page document body. -/
def samplePages : List Page := [⟨10, 612, 792⟩, ⟨20, 612, 792⟩, ⟨30, 612, 792⟩]

/-- A plain (non-encrypted) three-page PDF. -/
def samplePdfDoc : PdfDoc := { pages := samplePages, encryption := none, meta := 5 }

/-- Its byte buffer. -/
def samplePdfBytes : List Nat := encodePdf samplePdfDoc

/-- The same pages, AES-encrypted with user password "user" and owner
password "owner". -/
def sampleEncDoc : PdfDoc :=
  { pages := samplePages, encryption := some ("user", "owner"), meta := 5 }

/-- Its byte buffer. -/
def sampleEncBytes : List Nat := encodePdf sampleEncDoc

/-- A valid PDF with zero pages. -/
def emptyPdfDoc : PdfDoc := { pages := [], encryption := none, meta := 7 }

/-- Its byte buffer. -/
def emptyPdfBytes : List Nat := encodePdf emptyPdfDoc

/-- A decoded baseline JPEG (JPEG files decode to opaque modes such as RGB). -/
def sampleJpegImg : Img :=
  { width := 100, height := 50, mode := "RGB", format := some "JPEG", dpi := 72, data := 1 }

/-- A decoded grayscale-plus-alpha PNG: mode "LA" carries an alpha channel
but is neither "RGBA" nor "P". -/
def sampleLAImg : Img :=
  { width := 4, height := 4, mode := "LA", format := some "PNG", dpi := 72, data := 2 }

/-- A decoded RGBA PNG. -/
def sampleRGBAImg : Img :=
  { width := 4, height := 4, mode := "RGBA", format := some "PNG", dpi := 72, data := 3 }

/-! ### Shared lemmas -/

theorem pilSave_of_writable (img : Img) (fmt : String)
    (h : fmt = "JPEG" → jpegWritableModes.contains img.mode = true) :
    pilSave img fmt = Except.ok { img with format := some fmt } := by
  unfold pilSave
  by_cases hf : fmt = "JPEG"
  · have hmem : img.mode ∈ jpegWritableModes := by simpa using h hf
    simp [hf, hmem]
  · simp [hf]

theorem runCaught_isOk (pre : String) (r : HRes α) :
    ((runCaught pre r).2).isOk = true := by
  obtain ⟨msgs, res⟩ := r
  cases res <;> rfl

/-- A PDF buffer that decodes to a non-encrypted document rasterizes to one
RGB image per page without any message. -/
theorem pdf_to_images_ok (b : List Nat) (doc : PdfDoc) (dpi : Nat) (fmt : String)
    (hb : decodePdf b = some doc) (henc : doc.encryption = none) :
    pdf_to_images_pymupdf b dpi fmt =
      ([], Except.ok (some (doc.pages.map (fitzRenderPage dpi fmt)))) := by
  simp [pdf_to_images_pymupdf, pdf_to_images_pymupdf_body, fitzOpen, hb,
    fitzRenderAll, henc, runCaught]

theorem packZipEntriesFrom_rendered (fmt : String) (imgs : List Img)
    (hrgb : ∀ img ∈ imgs, img.mode = "RGB") : ∀ i,
    packZipEntriesFrom fmt imgs i = Except.ok (expectedEntries fmt imgs i) := by
  induction imgs with
  | nil => intro i; rfl
  | cons img rest ih =>
    intro i
    have hm : img.mode = "RGB" := hrgb img (List.mem_cons_self img rest)
    have hsave : pilSave img fmt = Except.ok { img with format := some fmt } := by
      apply pilSave_of_writable
      intro _
      simp [hm, jpegWritableModes]
    have htail := ih (fun x hx => hrgb x (List.mem_cons_of_mem img hx)) (i + 1)
    simp [packZipEntriesFrom, hsave, htail, expectedEntries]

theorem expectedEntries_length (fmt : String) (imgs : List Img) : ∀ i,
    (expectedEntries fmt imgs i).length = imgs.length := by
  induction imgs with
  | nil => intro i; rfl
  | cons img rest ih => intro i; simp [expectedEntries, ih]

theorem expectedEntries_name (fmt : String) (imgs : List Img) : ∀ i j
    (h : j < (expectedEntries fmt imgs i).length),
    ((expectedEntries fmt imgs i).get ⟨j, h⟩).1 =
      "page_" ++ toString (i + j + 1) ++ "." ++ strLower fmt := by
  induction imgs with
  | nil => intro i j h; simp [expectedEntries] at h
  | cons img rest ih =>
    intro i j h
    cases j with
    | zero => simp [expectedEntries]
    | succ j =>
      have h2 : j < (expectedEntries fmt rest (i + 1)).length := by
        simpa [expectedEntries] using h
      have := ih (i + 1) j h2
      simpa [expectedEntries, Nat.add_assoc, Nat.add_comm, Nat.add_left_comm] using this

/-! ### The claims -/

/-- C1: For every byte buffer that parses as a non-encrypted PDF and any
password, `decrypt_pdf` returns the input byte buffer itself — it does not
re-serialize or modify the bytes — and shows only the "PDF is not encrypted"
info message, never a failure. -/
theorem C1_decrypt_unencrypted_returns_input (b : List Nat) (doc : PdfDoc)
    (password : String) (hb : decodePdf b = some doc)
    (henc : doc.encryption = none) :
    decrypt_pdf b password =
      ([Msg.info "PDF is not encrypted"], Except.ok (some b)) := by
  simp [decrypt_pdf, decrypt_pdf_body, pypdfReaderOpen, hb, henc, runCaught]

theorem C1_witness :
    decrypt_pdf samplePdfBytes "guess" =
      ([Msg.info "PDF is not encrypted"], Except.ok (some samplePdfBytes)) :=
  C1_decrypt_unencrypted_returns_input samplePdfBytes samplePdfDoc "guess"
    (by decide) (by decide)

/-- C2: For every byte buffer that parses as an encrypted PDF and every
password matching neither the user nor the owner password, `decrypt_pdf`
shows exactly the distinct "Incorrect password" failure and returns `None`;
it does not take the generic "Decryption error" branch and does not return
any decrypted bytes. -/
theorem C2_decrypt_wrong_password (b : List Nat) (doc : PdfDoc)
    (u o password : String) (hb : decodePdf b = some doc)
    (henc : doc.encryption = some (u, o)) (hu : password ≠ u) (ho : password ≠ o) :
    decrypt_pdf b password = ([Msg.error "Incorrect password"], Except.ok none) := by
  simp [decrypt_pdf, decrypt_pdf_body, pypdfReaderOpen, hb, henc, pypdfDecrypt,
    runCaught, hu, ho]

theorem C2_witness :
    decrypt_pdf sampleEncBytes "wrong" =
      ([Msg.error "Incorrect password"], Except.ok none) :=
  C2_decrypt_wrong_password sampleEncBytes sampleEncDoc "user" "owner" "wrong"
    (by decide) (by decide) (by decide) (by decide)

/-- C8: For every byte buffer that parses as a (readable, i.e. non-encrypted)
PDF and every password, `encrypt_pdf` succeeds, decrypting its output with
the same password succeeds, and the final document carries exactly the
original pages bit-for-bit; only the container metadata of the rewritten file
may differ from the input. -/
theorem C8_encrypt_decrypt_roundtrip (b : List Nat) (doc : PdfDoc)
    (password : String) (owner_password : Option String)
    (hb : decodePdf b = some doc) (henc : doc.encryption = none) :
    encrypt_pdf b password owner_password =
      ([], Except.ok (some (pypdfWriterWrite doc.pages
        (some (password, pyOrStr owner_password password))))) ∧
    decrypt_pdf (pypdfWriterWrite doc.pages
        (some (password, pyOrStr owner_password password))) password =
      ([], Except.ok (some (pypdfWriterWrite doc.pages none))) ∧
    decodePdf (pypdfWriterWrite doc.pages none) =
      some { pages := doc.pages, encryption := none, meta := pypdfWriterMeta } := by
  refine ⟨?_, ?_, ?_⟩
  · simp [encrypt_pdf, encrypt_pdf_body, pypdfReaderOpen, hb, henc, runCaught]
  · simp [decrypt_pdf, decrypt_pdf_body, pypdfReaderOpen, pypdfWriterWrite,
      decodePdf_encodePdf, pypdfDecrypt, runCaught]
  · simp [pypdfWriterWrite, decodePdf_encodePdf]

theorem C8_witness :
    encrypt_pdf samplePdfBytes "pw" none =
      ([], Except.ok (some (pypdfWriterWrite samplePages (some ("pw", "pw"))))) ∧
    decrypt_pdf (pypdfWriterWrite samplePages (some ("pw", "pw"))) "pw" =
      ([], Except.ok (some (pypdfWriterWrite samplePages none))) ∧
    decodePdf (pypdfWriterWrite samplePages none) =
      some { pages := samplePages, encryption := none, meta := pypdfWriterMeta } :=
  C8_encrypt_decrypt_roundtrip samplePdfBytes samplePdfDoc "pw" none (by decide) rfl

/-- C10: `encrypt_pdf` evaluates `owner_password or user_password`, so an
explicitly supplied empty-string owner password behaves exactly like an
absent one: in both cases the user password is installed as the owner
password, and an empty owner password can never be set. -/
theorem C10_falsy_owner_password (b : List Nat) (doc : PdfDoc)
    (user_password : String) (hb : decodePdf b = some doc)
    (henc : doc.encryption = none) :
    encrypt_pdf b user_password (some "") = encrypt_pdf b user_password none ∧
    encrypt_pdf b user_password (some "") =
      ([], Except.ok (some (pypdfWriterWrite doc.pages
        (some (user_password, user_password))))) := by
  constructor
  · rfl
  · simp [encrypt_pdf, encrypt_pdf_body, pypdfReaderOpen, hb, henc, pyOrStr, runCaught]

theorem C10_witness :
    encrypt_pdf samplePdfBytes "pw" (some "") = encrypt_pdf samplePdfBytes "pw" none ∧
    encrypt_pdf samplePdfBytes "pw" (some "") =
      ([], Except.ok (some (pypdfWriterWrite samplePages (some ("pw", "pw"))))) :=
  C10_falsy_owner_password samplePdfBytes samplePdfDoc "pw" (by decide) rfl

/-- C3 (amended): For every byte buffer that parses as a non-encrypted PDF
with at least one page and output format PNG or JPEG, the convert action of
`pdf_to_images_interface` produces an archive with exactly one entry per
source page, the entry for page i (1-based) being named
`page_i.<format lowercased>`. (A zero-page PDF produces no archive at all:
see the counterexample.) -/
theorem C3_archive_one_entry_per_page (b : List Nat) (doc : PdfDoc) (dpi : Nat)
    (image_format : String) (hb : decodePdf b = some doc)
    (henc : doc.encryption = none) (hne : doc.pages ≠ [])
    (hfmt : image_format = "PNG" ∨ image_format = "JPEG") :
    pdf_to_images_interface_convert b dpi image_format =
      ([Msg.success ("✅ Converted " ++ toString doc.pages.length ++ " pages successfully!")],
        Except.ok (some (expectedEntries image_format
          (doc.pages.map (fitzRenderPage dpi image_format)) 0))) ∧
    (expectedEntries image_format (doc.pages.map (fitzRenderPage dpi image_format)) 0).length
      = doc.pages.length ∧
    ∀ i (h : i < (expectedEntries image_format
        (doc.pages.map (fitzRenderPage dpi image_format)) 0).length),
      ((expectedEntries image_format
        (doc.pages.map (fitzRenderPage dpi image_format)) 0).get ⟨i, h⟩).1 =
        "page_" ++ toString (i + 1) ++ "." ++ strLower image_format := by
  have himgs := pdf_to_images_ok b doc dpi image_format hb henc
  have hrgb : ∀ img ∈ doc.pages.map (fitzRenderPage dpi image_format), img.mode = "RGB" := by
    intro img hmem
    obtain ⟨p, _, rfl⟩ := List.mem_map.mp hmem
    rfl
  have hpack := packZipEntriesFrom_rendered image_format
    (doc.pages.map (fitzRenderPage dpi image_format)) hrgb 0
  have hemp : (doc.pages.map (fitzRenderPage dpi image_format)).isEmpty = false := by
    cases hp : doc.pages with
    | nil => exact absurd hp hne
    | cons p ps => simp [hp]
  refine ⟨?_, ?_, ?_⟩
  · simp [pdf_to_images_interface_convert, himgs, hemp, hpack]
  · rw [expectedEntries_length]
    exact List.length_map doc.pages (fitzRenderPage dpi image_format)
  · intro i h
    have := expectedEntries_name image_format
      (doc.pages.map (fitzRenderPage dpi image_format)) 0 i h
    simpa using this

theorem C3_witness :
    pdf_to_images_interface_convert samplePdfBytes 150 "PNG" =
      ([Msg.success ("✅ Converted " ++ toString samplePdfDoc.pages.length ++
          " pages successfully!")],
        Except.ok (some (expectedEntries "PNG"
          (samplePdfDoc.pages.map (fitzRenderPage 150 "PNG")) 0))) :=
  (C3_archive_one_entry_per_page samplePdfBytes samplePdfDoc 150 "PNG"
    (by decide) rfl (by decide) (Or.inl rfl)).1

/-- C3 (counterexample): the claim quantifies over every valid PDF, but for a
valid zero-page PDF the convert action produces no archive at all — the
result is `none`, not an (empty) archive — because the handler's empty image
list is falsy in `if images:`. -/
theorem C3_counterexample_zero_page_pdf :
    pdf_to_images_interface_convert emptyPdfBytes 150 "PNG" = ([], Except.ok none) ∧
    (Except.ok none : Except String (Option (List (String × Img)))) ≠
      Except.ok (some (expectedEntries "PNG" [] 0)) := by
  constructor
  · rfl
  · simp [expectedEntries]

/-- C4: the handler `pdf_to_images_pymupdf` succeeds on a valid zero-page PDF
and returns the empty image list with no error, but the interface block then
treats that empty list as falsy in `if images:` — the same test that guards
against the handler's `None` error value — so no archive and no message of
any kind is produced: the operation silently yields no output, contradicting
the documented "empty PDF → empty archive, not an error" policy. -/
theorem C4_empty_pdf_silently_dropped :
    pdf_to_images_pymupdf emptyPdfBytes 150 "PNG" = ([], Except.ok (some [])) ∧
    pdf_to_images_interface_convert emptyPdfBytes 150 "PNG" = ([], Except.ok none) := by
  exact ⟨rfl, rfl⟩

/-- A concrete recognition function standing in for `reader.readtext`. -/
def sampleReadtext : String → Img → Except String (List String) :=
  fun _ _ => Except.ok ["text"]

/-- C5: For every decodable image (a decoded JPEG always carries a
JPEG-writable mode) and positive target width and height, `resize_image`
returns an image whose pixel dimensions are exactly the requested ones —
the aspect ratio is not auto-preserved — re-encoded in the format detected
on the input, falling back to PNG when no format was detected. -/
theorem C5_resize_exact_dims (img : Img) (width height : Nat)
    (hdec : img.format = some "JPEG" → jpegWritableModes.contains img.mode = true)
    (hw : 0 < width) (hh : 0 < height) :
    resize_image (some img) width height =
      ([], Except.ok (some
        ({ pilResize img width height with format := some (pilFormatOrPNG img) },
          strLower (pilFormatOrPNG img)))) ∧
    (pilResize img width height).width = width ∧
    (pilResize img width height).height = height ∧
    (img.format = none → pilFormatOrPNG img = "PNG") ∧
    (∀ f, img.format = some f → f ≠ "" → pilFormatOrPNG img = f) := by
  have hmode : pilFormatOrPNG img = "JPEG" →
      jpegWritableModes.contains (pilResize img width height).mode = true := by
    intro hfmt
    show jpegWritableModes.contains img.mode = true
    apply hdec
    cases hi : img.format with
    | none =>
      simp [pilFormatOrPNG, hi] at hfmt
    | some f =>
      by_cases hfe : f = ""
      · simp [pilFormatOrPNG, hi, hfe] at hfmt
      · simp [pilFormatOrPNG, hi, hfe] at hfmt
        exact congrArg some hfmt
  have hsave := pilSave_of_writable (pilResize img width height) (pilFormatOrPNG img) hmode
  refine ⟨?_, rfl, rfl, ?_, ?_⟩
  · simp [resize_image, resize_image_body, pilOpen, hsave, runCaught]
  · intro h0
    simp [pilFormatOrPNG, h0]
  · intro f hf hne
    simp [pilFormatOrPNG, hf, hne]

theorem C5_witness :
    resize_image (some sampleJpegImg) 7 9 =
      ([], Except.ok (some
        ({ width := 7, height := 9, mode := "RGB", format := some "JPEG", dpi := 72, data := 1 },
          "jpeg"))) :=
  (C5_resize_exact_dims sampleJpegImg 7 9 (by decide) (by decide) (by decide)).1

/-- The image `compress_image` hands to the JPEG encoder: flattened to RGB
only when the source mode is exactly "RGBA" or "P". -/
def compressSaved (img : Img) : Img :=
  { (if img.mode == "RGBA" || img.mode == "P" then pilConvertRGB img else img) with
    format := some "JPEG" }

/-- C6 (amended): For every decodable image whose mode is "RGBA" or "P" — or
already a JPEG-writable opaque mode — and every quality in [10,100],
`compress_image` succeeds and produces JPEG output, flattening "RGBA" and
"P" to RGB first. Images carrying alpha in any other mode (such as "LA") are
not flattened and the failure branch is reachable for them: see the
counterexample. -/
theorem C6_compress_flattens_rgba_p (img : Img) (quality : Nat)
    (h10 : 10 ≤ quality) (h100 : quality ≤ 100)
    (hmode : img.mode = "RGBA" ∨ img.mode = "P" ∨ img.mode ∈ jpegWritableModes) :
    compress_image (some img) quality = ([], Except.ok (some (compressSaved img))) ∧
    (compressSaved img).format = some "JPEG" ∧
    (compressSaved img).mode ∈ jpegWritableModes ∧
    ((img.mode = "RGBA" ∨ img.mode = "P") → (compressSaved img).mode = "RGB") := by
  rcases hmode with h | h | h
  · refine ⟨?_, rfl, ?_, ?_⟩
    · simp [compress_image, compress_image_body, pilOpen, compressSaved, h,
        pilConvertRGB, pilSave, jpegWritableModes, runCaught]
    · simp [compressSaved, pilConvertRGB, h, jpegWritableModes]
    · intro _
      simp [compressSaved, pilConvertRGB, h]
  · refine ⟨?_, rfl, ?_, ?_⟩
    · simp [compress_image, compress_image_body, pilOpen, compressSaved, h,
        pilConvertRGB, pilSave, jpegWritableModes, runCaught]
    · simp [compressSaved, pilConvertRGB, h, jpegWritableModes]
    · intro _
      simp [compressSaved, pilConvertRGB, h]
  · simp only [jpegWritableModes, List.mem_cons, List.not_mem_nil, or_false] at h
    refine ⟨?_, rfl, ?_, ?_⟩
    · rcases h with h|h|h|h|h|h <;>
        simp [compress_image, compress_image_body, pilOpen, compressSaved, h,
          pilSave, jpegWritableModes, runCaught]
    · rcases h with h|h|h|h|h|h <;> simp [compressSaved, pilConvertRGB, h, jpegWritableModes]
    · rintro (h2 | h2) <;>
        (rcases h with h|h|h|h|h|h <;> (rw [h] at h2; exact absurd h2 (by decide)))

theorem C6_witness :
    compress_image (some sampleRGBAImg) 85 =
      ([], Except.ok (some (compressSaved sampleRGBAImg))) :=
  (C6_compress_flattens_rgba_p sampleRGBAImg 85 (by decide) (by decide) (Or.inl rfl)).1

/-- C6 (counterexample): a decodable grayscale-plus-alpha image in mode "LA"
has an alpha channel but is not flattened — the mode test covers only "RGBA"
and "P" — so the JPEG encoder raises and the failure branch is taken, against
the claim that compression succeeds for every alpha image. -/
theorem C6_counterexample_LA_alpha_not_flattened :
    compress_image (some sampleLAImg) 85 =
      ([Msg.error "Compression error: cannot write mode LA as JPEG"], Except.ok none) := rfl

/-- C7 (amended): every handler except `perform_ocr_on_image` wraps its body
in try/except, so a caught exception becomes exactly one descriptive error
message plus a `None` result (no partial output) and never escapes; but
`perform_ocr_on_image` has no such boundary and a library exception (here:
`Image.open` on an undecodable file) escapes it. -/
theorem C7_boundary_catching :
    (∀ (α : Type) (pre : String) (msgs : List Msg) (e : String),
      runCaught pre ((msgs, Except.error e) : HRes α) =
        (msgs ++ [Msg.error (pre ++ e)], Except.ok none)) ∧
    (∀ b dpi fmt, ((pdf_to_images_pymupdf b dpi fmt).2).isOk = true) ∧
    (∀ (rt : String → Img → Except String (List String)) b lang,
      ((perform_ocr_on_pdf rt b lang).2).isOk = true) ∧
    (∀ b u o, ((encrypt_pdf b u o).2).isOk = true) ∧
    (∀ b pw, ((decrypt_pdf b pw).2).isOk = true) ∧
    (∀ f w h, ((resize_image f w h).2).isOk = true) ∧
    (∀ f q, ((compress_image f q).2).isOk = true) ∧
    (∀ (conv : List (Option Img) → Except String (List Nat)) files,
      ((images_to_pdf_conversion conv files).2).isOk = true) ∧
    (∃ (rt : String → Img → Except String (List String)) (file : Option Img) (lang : String),
      perform_ocr_on_image rt file lang = Except.error "cannot identify image file") :=
  ⟨fun _ _ _ _ => rfl,
   fun _ _ _ => runCaught_isOk _ _,
   fun _ _ _ => runCaught_isOk _ _,
   fun _ _ _ => runCaught_isOk _ _,
   fun _ _ => runCaught_isOk _ _,
   fun _ _ _ => runCaught_isOk _ _,
   fun _ _ => runCaught_isOk _ _,
   fun _ _ => runCaught_isOk _ _,
   ⟨sampleReadtext, none, "eng", rfl⟩⟩

/-- C7 (counterexample): `perform_ocr_on_image` is a transformation handler
with no try/except; on an undecodable image file the `Image.open` exception
escapes the handler instead of being surfaced as a message. -/
theorem C7_counterexample_uncaught_ocr_image :
    perform_ocr_on_image sampleReadtext none "eng" =
      Except.error "cannot identify image file" := rfl

/-- C9: `perform_ocr_on_pdf` calls `pdf_to_images_pymupdf` with no dpi
argument, so every page is rasterized at the fixed default dpi=200 — each
image fed to recognition carries dpi 200 — and the whole run is determined by
that fixed-dpi rasterization; the language option never reaches the
rasterizer. -/
theorem C9_ocr_pdf_uses_dpi_200 (readtext : String → Img → Except String (List String))
    (b : List Nat) (doc : PdfDoc) (language : String)
    (hb : decodePdf b = some doc) (henc : doc.encryption = none) :
    (∀ img ∈ doc.pages.map (fitzRenderPage 200 "PNG"), img.dpi = 200) ∧
    perform_ocr_on_pdf readtext b language =
      runCaught "OCR Error: " ([], Except.map some
        (ocrPages readtext ((lang_map.lookup language).getD "en")
          (doc.pages.map (fitzRenderPage 200 "PNG")) 0)) := by
  constructor
  · intro img hmem
    obtain ⟨p, _, rfl⟩ := List.mem_map.mp hmem
    rfl
  · have himgs := pdf_to_images_ok b doc 200 "PNG" hb henc
    unfold perform_ocr_on_pdf perform_ocr_on_pdf_body
    rw [himgs]
    cases hoc : ocrPages readtext ((lang_map.lookup language).getD "en")
        (doc.pages.map (fitzRenderPage 200 "PNG")) 0 with
    | error e => simp [hoc, runCaught, Except.map]
    | ok texts => simp [hoc, runCaught, Except.map]

theorem C9_witness :
    perform_ocr_on_pdf sampleReadtext samplePdfBytes "eng" =
      runCaught "OCR Error: " ([], Except.map some
        (ocrPages sampleReadtext ((lang_map.lookup "eng").getD "en")
          (samplePdfDoc.pages.map (fitzRenderPage 200 "PNG")) 0)) :=
  (C9_ocr_pdf_uses_dpi_200 sampleReadtext samplePdfBytes samplePdfDoc "eng"
    (by decide) rfl).2
